import Mathlib

/-!
Verification development for the myshoes repository (Go sources under
pkg/gh/jwt.go, pkg/config/init.go, and the main package).  Go functions are
shallowly embedded as Lean functions; external effects (GitHub API calls,
the filesystem, HTTP, the datastore) are passed in as function parameters;
fallible Go code returns Except/Option; unbounded Go loops take fuel.
-/

namespace Myshoes

/-- Model of Go strings.EqualFold: case-insensitive string equality
(simple case folding modelled by lowercasing both sides, at the level of the
character list so that proofs can evaluate it). -/
def equalFold (a b : String) : Bool := a.data.map Char.toLower == b.data.map Char.toLower

/-- Model of Go strings.HasPrefix s p: p is a prefix of s (case-sensitive). -/
def hasPrefixGo (s p : String) : Bool := p.data.isPrefixOf s.data

/-- Whether an Except value is a success (err == nil in Go). -/
def exOk {ε α : Type} : Except ε α → Bool
  | .ok _ => true
  | .error _ => false

namespace gh

/-- One element of the list returned by Apps.ListInstallations, keeping the
fields read by pkg/gh/jwt.go: ID, Account.Login, SuspendedAt (an Option:
Go nil pointer is none), RepositorySelection. -/
structure Installation where
  id : Int
  accountLogin : String
  suspendedAt : Option Nat
  repositorySelection : String
deriving DecidableEq, Repr

/-- The response of client.Apps.ListRepos used by isInstalledGitHubAppSelected:
TotalCount plus the repositories, each kept as its FullName (the only field
the code reads). -/
structure ListRepositories where
  totalCount : Int
  repositories : List String
deriving DecidableEq, Repr

/-- The gh.Scope enumeration (Organization / Repository / Unknown). -/
inductive Scope
  | organization
  | repository
  | unknownScope
deriving DecidableEq, Repr

/-- Modelled from the spec: DetectScope lives in the gh package but its file is
not under src/.  The glossary defines a scope as a string of form owner
(Organization) or owner/repo (Repository); we classify by the number of
slash characters, anything else being unknown. -/
def DetectScope (scope : String) : Scope :=
  if scope.data.countP (fun c => c == '/') = 0 then .organization
  else if scope.data.countP (fun c => c == '/') = 1 then .repository
  else .unknownScope

/-- Modelled from the spec: DivideScope lives in the gh package but its file is
not under src/.  The spec says the Repository case splits the scope on the
first slash into owner and repo. -/
def DivideScope (scope : String) : String × String :=
  (⟨scope.data.takeWhile (fun c => c != '/')⟩,
    ⟨(scope.data.dropWhile (fun c => c != '/')).drop 1⟩)

/-- Embedding of isInstalledGitHubAppSelected (pkg/gh/jwt.go lines 100-125).
The call chain GHlistAppsInstalledRepo (token client, Apps.ListRepos) is
abstracted as listRepos, keyed by the installation id. -/
def isInstalledGitHubAppSelected (listRepos : Int → Except String ListRepositories)
    (inputScope : String) (installationID : Int) : Except String Unit :=
  match listRepos installationID with
  | .error e => .error ("failed to get list of installed repositories: " ++ e)
  | .ok lr =>
    if lr.totalCount ≤ 0 then .error "installed repository is not found"
    else if DetectScope inputScope = .organization then .ok ()
    else if DetectScope inputScope ≠ .repository then .error "scope is unknown"
    else if lr.repositories.any (fun fullName => equalFold fullName inputScope) then .ok ()
    else .error "not found"

/-- The for-loop body of IsInstalledGitHubApp (pkg/gh/jwt.go lines 71-95):
skip suspended installations, require Account.Login to be a case-sensitive
prefix of the input scope (strings.HasPrefix(inputScope, login)), return the
id when RepositorySelection is "all", consult selectedCheck when it is
"selected", otherwise continue. -/
def installationsLoop (selectedCheck : Int → Except String Unit) (inputScope : String) :
    List Installation → Option Int
  | [] => none
  | i :: rest =>
    if i.suspendedAt.isSome then installationsLoop selectedCheck inputScope rest
    else if hasPrefixGo inputScope i.accountLogin then
      if equalFold i.repositorySelection "all" then some i.id
      else if equalFold i.repositorySelection "selected" then
        match selectedCheck i.id with
        | .ok _ => some i.id
        | .error _ => installationsLoop selectedCheck inputScope rest
      else installationsLoop selectedCheck inputScope rest
    else installationsLoop selectedCheck inputScope rest

/-- The condition under which one loop iteration of IsInstalledGitHubApp
returns an id at this installation. -/
def loopMatches (selectedCheck : Int → Except String Unit) (inputScope : String)
    (i : Installation) : Bool :=
  i.suspendedAt.isNone && hasPrefixGo inputScope i.accountLogin &&
    (equalFold i.repositorySelection "all" ||
      (equalFold i.repositorySelection "selected" && exOk (selectedCheck i.id)))

/-- Embedding of listInstallations (pkg/gh/jwt.go lines 149-169).  The
provider call Apps.ListInstallations is abstracted as api page perPage,
returning the installations of that page and resp.NextPage (0 means no next
page).  The Go loop is unbounded, so the embedding takes fuel. -/
def listInstallations (api : Nat → Nat → Except String (List Installation × Nat)) :
    Nat → Nat → List Installation → Except String (List Installation)
  | 0, _, _ => .error "out of fuel"
  | fuel + 1, page, acc =>
    match api page 10 with
    | .error e => .error ("failed to list installations: " ++ e)
    | .ok (is, next) =>
      if next = 0 then .ok (acc ++ is)
      else listInstallations api fuel next (acc ++ is)

/-- Embedding of IsInstalledGitHubApp (pkg/gh/jwt.go lines 61-98).
newClientApps abstracts GHNewClientGitHubApps; api abstracts the provider
pagination; selectedCheck abstracts isInstalledGitHubAppSelected applied to
its first three arguments.  The Go pair (int64, error) is returned as
Int × Option String. -/
def IsInstalledGitHubApp (newClientApps : Except String Unit)
    (api : Nat → Nat → Except String (List Installation × Nat))
    (selectedCheck : Int → Except String Unit)
    (fuel : Nat) (gheDomain inputScope : String) : Int × Option String :=
  match newClientApps with
  | .error e => (-1, some ("failed to create client from GitHub Apps: " ++ e))
  | .ok _ =>
    match listInstallations api fuel 0 [] with
    | .error e => (-1, some ("failed to get list of installations: " ++ e))
    | .ok installations =>
      match installationsLoop selectedCheck inputScope installations with
      | some id => (id, none)
      | none =>
        (-1, some (gheDomain ++ "/" ++ inputScope ++ " is not installed configured GitHub Apps"))

/-- The pagination structure of the provider: starting from page, the chain of
responses at per-page 10 yields these page contents and ends with NextPage 0. -/
inductive PageChain (api : Nat → Nat → Except String (List Installation × Nat)) :
    Nat → List (List Installation) → Prop
  | last (page : Nat) (is : List Installation) :
      api page 10 = .ok (is, 0) → PageChain api page [is]
  | step (page next : Nat) (is : List Installation) (rest : List (List Installation)) :
      api page 10 = .ok (is, next) → next ≠ 0 → PageChain api next rest →
      PageChain api page (is :: rest)

/-- Embedding of GenerateRunnerRegistrationToken (pkg/gh/jwt.go lines 35-58).
The installation client construction and the two provider endpoints
(Actions.CreateOrganizationRegistrationToken, Actions.CreateRegistrationToken)
are abstracted as parameters; a token is its string and expiry. -/
structure RegistrationToken where
  token : String
  expiresAt : Int
deriving DecidableEq, Repr

def GenerateRunnerRegistrationToken
    (newClientInstallation : Except String Unit)
    (orgEndpoint : String → Except String RegistrationToken)
    (repoEndpoint : String → String → Except String RegistrationToken)
    (scope : String) : Except String (String × Int) :=
  match newClientInstallation with
  | .error e => .error ("failed to create NewClientInstallation: " ++ e)
  | .ok _ =>
    match DetectScope scope with
    | .organization =>
      match orgEndpoint scope with
      | .error e =>
        .error ("failed to generate registration token for organization (scope: " ++ scope ++ "): " ++ e)
      | .ok t => .ok (t.token, t.expiresAt)
    | .repository =>
      match repoEndpoint (DivideScope scope).1 (DivideScope scope).2 with
      | .error e =>
        .error ("failed to generate registration token for repository (scope: " ++ scope ++ "): " ++ e)
      | .ok t => .ok (t.token, t.expiresAt)
    | .unknownScope => .error ("failed to detect scope (scope: " ++ scope ++ ")")

end gh

namespace config

/-- The webhook-mode enumeration of the config package (its declaration file is
not under src/; the spec names the modes workflow_job, check_run and invalid). -/
inductive ModeWebhookType
  | workflowJob
  | checkRun
  | unknownType
deriving DecidableEq, Repr

/-- DockerHubCredential: username and password (Go zero value: empty strings). -/
structure DockerHubCredential where
  username : String
  password : String
deriving DecidableEq, Repr

/-- The fields of config.Conf that LoadWithDefault populates, in the order the
Go function assigns them. -/
structure Conf where
  port : Int
  runnerUser : String
  debug : Bool
  strict : Bool
  modeWebhookType : ModeWebhookType
  provideDockerHubMetrics : Bool
  dockerHubCredential : DockerHubCredential
  maxConnectionsToBackend : Int
  maxConcurrencyDeleting : Int
  gitHubURL : String
  runnerVersion : String
  shoesPluginOutputPath : String
  enableRescueWorkflow : Bool
deriving DecidableEq, Repr

/-- Modelled from the spec: the Env* name constants of the config package are
declared in a file not under src/; the spec only enumerates the variables, so
the literal names below are placeholders and no claim depends on them. -/
def EnvPort : String := "PORT"

def EnvRunnerUser : String := "RUNNER_USER"

def EnvDebug : String := "DEBUG"

def EnvStrict : String := "STRICT"

def EnvModeWebhookType : String := "MODE_WEBHOOK_TYPE"

def EnvProvideDockerHubMetrics : String := "PROVIDE_DOCKER_HUB_METRICS"

def EnvDockerHubUsername : String := "DOCKER_HUB_USERNAME"

def EnvDockerHubPassword : String := "DOCKER_HUB_PASSWORD"

def EnvMaxConnectionsToBackend : String := "MAX_CONNECTIONS_TO_BACKEND"

def EnvMaxConcurrencyDeleting : String := "MAX_CONCURRENCY_DELETING"

def EnvGitHubURL : String := "GITHUB_URL"

def EnvRunnerVersion : String := "RUNNER_VERSION"

def EnvShoesPluginOutputPath : String := "SHOES_PLUGIN_OUTPUT_PATH"

def EnvEnableRescueWorkflow : String := "ENABLE_RESCUE_WORKFLOW"

def EnvShoesPluginPath : String := "SHOES_PLUGIN_PATH"

/-- Modelled from the spec: marshalModeWebhookType is in the config package but
not under src/.  The spec: webhook-mode is workflow_job (default) or check_run
(deprecated); anything else is invalid. -/
def marshalModeWebhookType (s : String) : ModeWebhookType :=
  if s = "workflow_job" then .workflowJob
  else if s = "check_run" then .checkRun
  else .unknownType

/-- The external libraries LoadWithDefault calls: hashicorp go-version
(NewVersion succeeds or fails) and net/url (Parse yields scheme and host, or
fails).  They are third-party code, abstracted as parameters. -/
structure ExternalLibs where
  versionValid : String → Bool
  urlSchemeHost : String → Option (String × String)

/-- Decimal digit run to a Nat; none when empty or a non-digit appears. -/
def digitsToNat (l : List Char) : Option Nat :=
  if l = [] then none
  else if l.all (fun c => 48 ≤ c.toNat && c.toNat ≤ 57) then
    some (l.foldl (fun acc c => 10 * acc + (c.toNat - 48)) 0)
  else none

/-- Model of Go strconv integer parsing for the values this development
evaluates (an optional sign then decimal digits; the int64 range bound is
not modelled). -/
def goParseInt (s : String) : Option Int :=
  match s.data with
  | '-' :: rest => (digitsToNat rest).map (fun n => -(n : Int))
  | '+' :: rest => (digitsToNat rest).map (fun n => (n : Int))
  | l => (digitsToNat l).map (fun n => (n : Int))

/-- An environment: Getenv, with the empty string meaning unset. -/
def Env : Type := String → String

/-- Port section of LoadWithDefault (pkg/config/init.go lines 37-45):
default "8080", overridden when set, parsed with strconv.Atoi, panic on
parse failure. -/
def loadPort (env : Env) : Option Int :=
  goParseInt (if env EnvPort ≠ "" then env EnvPort else "8080")

/-- RunnerUser section (lines 47-51): default "runner". -/
def loadRunnerUser (env : Env) : String :=
  if env EnvRunnerUser ≠ "" then env EnvRunnerUser else "runner"

/-- Debug section (lines 53-56): false unless the variable is "true". -/
def loadDebug (env : Env) : Bool := env EnvDebug == "true"

/-- Strict section (lines 58-61): true unless the variable is "false". -/
def loadStrict (env : Env) : Bool := !(env EnvStrict == "false")

/-- ModeWebhookType section (lines 63-76): default workflow_job; when set,
marshal it and panic on unknown. -/
def loadModeWebhookType (env : Env) : Option ModeWebhookType :=
  if env EnvModeWebhookType ≠ "" then
    if marshalModeWebhookType (env EnvModeWebhookType) = .unknownType then none
    else some (marshalModeWebhookType (env EnvModeWebhookType))
  else some .workflowJob

/-- ProvideDockerHubMetrics section (lines 78-81). -/
def loadProvideDockerHubMetrics (env : Env) : Bool :=
  env EnvProvideDockerHubMetrics == "true"

/-- DockerHubCredential section (lines 83-93): set only when metrics are on
and both variables are set, else the zero value. -/
def loadDockerHubCredential (env : Env) : DockerHubCredential :=
  if loadProvideDockerHubMetrics env
      && env EnvDockerHubUsername ≠ "" && env EnvDockerHubPassword ≠ "" then
    ⟨env EnvDockerHubUsername, env EnvDockerHubPassword⟩
  else ⟨"", ""⟩

/-- MaxConnectionsToBackend section (lines 95-102): default 50, ParseInt when
set, panic on parse failure. -/
def loadMaxConnectionsToBackend (env : Env) : Option Int :=
  if env EnvMaxConnectionsToBackend ≠ "" then goParseInt (env EnvMaxConnectionsToBackend)
  else some 50

/-- MaxConcurrencyDeleting section (lines 103-110): default 1. -/
def loadMaxConcurrencyDeleting (env : Env) : Option Int :=
  if env EnvMaxConcurrencyDeleting ≠ "" then goParseInt (env EnvMaxConcurrencyDeleting)
  else some 1

/-- GitHubURL section (lines 112-127): default https://github.com; when set the
value must url.Parse and have a scheme and a host, else panic. -/
def loadGitHubURL (ext : ExternalLibs) (env : Env) : Option String :=
  if env EnvGitHubURL ≠ "" then
    match ext.urlSchemeHost (env EnvGitHubURL) with
    | none => none
    | some (scheme, host) =>
      if equalFold scheme "" then none
      else if equalFold host "" then none
      else some (env EnvGitHubURL)
  else some "https://github.com"

/-- RunnerVersion section (lines 129-144): "latest" when unset; when set, only
"latest" or a string version.NewVersion accepts, else panic. -/
def loadRunnerVersion (ext : ExternalLibs) (env : Env) : Option String :=
  if env EnvRunnerVersion = "" then some "latest"
  else if env EnvRunnerVersion = "latest" then some "latest"
  else if ext.versionValid (env EnvRunnerVersion) then some (env EnvRunnerVersion)
  else none

/-- ShoesPluginOutputPath section (lines 146-149): default ".". -/
def loadShoesPluginOutputPath (env : Env) : String :=
  if env EnvShoesPluginOutputPath ≠ "" then env EnvShoesPluginOutputPath else "."

/-- EnableRescueWorkflow section (lines 151-154). -/
def loadEnableRescueWorkflow (env : Env) : Bool :=
  env EnvEnableRescueWorkflow == "true"

/-- Embedding of LoadWithDefault (pkg/config/init.go lines 34-158).  A Go
log.Panicf in any section is modelled as none; otherwise the Conf assembled
from the sections (fields in declaration order). -/
def LoadWithDefault (ext : ExternalLibs) (env : Env) : Option Conf := do
  let pp ← loadPort env
  let mwt ← loadModeWebhookType env
  let mc ← loadMaxConnectionsToBackend env
  let md ← loadMaxConcurrencyDeleting env
  let gu ← loadGitHubURL ext env
  let rv ← loadRunnerVersion ext env
  some ⟨pp, loadRunnerUser env, loadDebug env, loadStrict env, mwt,
    loadProvideDockerHubMetrics env, loadDockerHubCredential env, mc, md, gu, rv,
    loadShoesPluginOutputPath env, loadEnableRescueWorkflow env⟩

/-- The parse result of net/url used by fetch: scheme, host and path. -/
structure URLParts where
  scheme : String
  host : String
  path : String
deriving DecidableEq, Repr

/-- u.String() for the parts this development keeps. -/
def urlString (u : URLParts) : String := u.scheme ++ "://" ++ u.host ++ u.path

/-- The element after the last slash of a path: the last element of
strings.Split(path, "/") in Go. -/
def lastSegment (path : String) : String :=
  ⟨(path.data.reverse.takeWhile (fun c => c != '/')).reverse⟩

/-- The outside world LoadPluginPath interacts with: the filesystem (an
association list of files, first match wins; the working directory), HTTP GET
(status code and body, none on transport error), chmod and filepath.Abs and
os.Create outcomes, the net/http content-type sniffer, and net/url parsing.
File contents are byte lists. -/
structure World where
  files : List (String × List Nat)
  cwd : String
  httpGet : String → Option (Nat × List Nat)
  chmodFails : String → Bool
  absResolve : String → Option String
  createFails : String → Bool
  detectContentType : List Nat → String
  urlParse : String → Option URLParts

/-- os.Stat succeeding: the path names an existing file. -/
def statOk (w : World) (p : String) : Bool := (w.files.lookup p).isSome

/-- Writing a file: the new entry shadows older ones. -/
def writeFile (w : World) (p : String) (content : List Nat) : World :=
  ⟨(p, content) :: w.files, w.cwd, w.httpGet, w.chmodFails, w.absResolve,
    w.createFails, w.detectContentType, w.urlParse⟩

/-- Embedding of fetchHTTP (pkg/config/init.go lines 287-323): resolve the
output directory ("." becomes the working directory), name the file after the
last segment of the URL path, create the file (empty), GET the URL, fail
unless the status is 200, then write the body.  filepath.Join is modelled as
slash concatenation.  A none result models the Go error return (the caller
panics). -/
def fetchHTTP (outputPath : String) (w : World) (u : URLParts) :
    Option (String × World) :=
  let dir := if equalFold outputPath "." then w.cwd else outputPath
  let fileName := lastSegment u.path
  let fp := dir ++ "/" ++ fileName
  if w.createFails fp then none
  else
    let w1 := writeFile w fp []
    match w1.httpGet (urlString u) with
    | none => none
    | some (status, body) =>
      if status ≠ 200 then none
      else some (fp, writeFile w1 fp body)

/-- Embedding of fetch (pkg/config/init.go lines 266-283): an existing file is
used directly; otherwise the path must parse as a URL with scheme http or
https and is fetched, any other scheme failing. -/
def fetch (outputPath : String) (w : World) (p : String) : Option (String × World) :=
  if statOk w p then some (p, w)
  else
    match w.urlParse p with
    | none => none
    | some u =>
      if u.scheme = "http" then fetchHTTP outputPath w u
      else if u.scheme = "https" then fetchHTTP outputPath w u
      else none

/-- Embedding of checkBinary (pkg/config/init.go lines 235-262): read the
file, require its detected content type to equal application/octet-stream
case-insensitively, chmod it to 0777, and return the path itself when
absolute (a leading slash) or filepath.Abs of it otherwise. -/
def checkBinary (w : World) (p : String) : Option String :=
  match w.files.lookup p with
  | none => none
  | some content =>
    if !(equalFold (w.detectContentType content) "application/octet-stream") then none
    else if w.chmodFails p then none
    else if hasPrefixGo p "/" then some p
    else w.absResolve p

/-- Embedding of LoadPluginPath (pkg/config/init.go lines 218-233): the
variable must be set; fetch then checkBinary, any failure panicking (none).
outputPath is Config.ShoesPluginOutputPath, read by fetchHTTP. -/
def LoadPluginPath (outputPath : String) (env : Env) (w : World) : Option String :=
  if env EnvShoesPluginPath = "" then none
  else
    match fetch outputPath w (env EnvShoesPluginPath) with
    | none => none
    | some (fp, w2) => checkBinary w2 fp

end config

namespace main

/-- The outcome of the boot phase of Run (src/unnamed/part_000 lines 80-122):
an error return, or the service loops started after a number of 1-second
sleeps (one sleep per poll that saw the lock held), or fuel exhausted (the
Go loop alone is unbounded). -/
inductive BootOutcome
  | failed (msg : String)
  | started (sleeps : Nat)
  | fuelOut
deriving DecidableEq, Repr

/-- Embedding of the lock-acquisition loop of Run (lines 83-100).  The
datastore is abstracted as isLocked and getLock indexed by the attempt
number; notLockedVal is the datastore.IsNotLocked constant the result is
compared against with strings.EqualFold. -/
def runBootLoop (isLocked : Nat → Except String String)
    (getLock : Nat → Except String Unit) (notLockedVal : String) :
    Nat → Nat → BootOutcome
  | 0, _ => .fuelOut
  | fuel + 1, k =>
    match isLocked k with
    | .error e => .failed ("failed to check lock: " ++ e)
    | .ok s =>
      if equalFold s notLockedVal then
        match getLock k with
        | .error e => .failed ("failed to get lock: " ++ e)
        | .ok _ => .started k
      else runBootLoop isLocked getLock notLockedVal fuel (k + 1)

/-- Embedding of Run (lines 80-128) up to the launch of the errgroup
goroutines: the boot loop starting at attempt 0. -/
def Run (isLocked : Nat → Except String String) (getLock : Nat → Except String Unit)
    (notLockedVal : String) (fuel : Nat) : BootOutcome :=
  runBootLoop isLocked getLock notLockedVal fuel 0

/-- The service loops Run launches (lines 102-122) in each outcome: web.Serve,
start.Loop and run.Loop only after the boot loop broke out with the lock. -/
def launchedServices : BootOutcome → List String
  | .started _ => ["web server", "starter loop", "runner lifecycle loop"]
  | _ => []

/-- The enqueue-notify channel: its capacity and how many posts are buffered
and undrained. -/
structure NotifyCh where
  capacity : Nat
  buffered : Nat
deriving DecidableEq, Repr

/-- The channel made by newShoes (src/unnamed/part_000 line 60):
make(chan, 1), initially empty. -/
def notifyEnqueueCh : NotifyCh := ⟨1, 0⟩

/-- Modelled from the spec: the posting side (the mysql datastore after
EnqueueJob) is not under src/; the spec says a post while a prior one is
undrained is silently dropped (a non-blocking send). -/
def post (c : NotifyCh) : NotifyCh :=
  if c.buffered < c.capacity then ⟨c.capacity, c.buffered + 1⟩ else c

/-- Modelled from the spec: the observing side (the starter loop) is not under
src/; a drain takes one buffered post if any, reporting whether it got one
(one extra starter tick). -/
def drain (c : NotifyCh) : NotifyCh × Bool :=
  if 0 < c.buffered then (⟨c.capacity, c.buffered - 1⟩, true) else (c, false)

/-- n consecutive posts. -/
def postN (c : NotifyCh) : Nat → NotifyCh
  | 0 => c
  | n + 1 => post (postN c n)

end main

namespace fixtures

/-- An unsuspended installation with selection "all". -/
def instOcto : gh.Installation := ⟨5, "octo", none, "all"⟩

/-- An unsuspended installation with selection "selected". -/
def instZeta : gh.Installation := ⟨7, "zeta", none, "selected"⟩

/-- A provider listing installations over two pages (page 0 then page 3). -/
def twoPageApi : Nat → Nat → Except String (List gh.Installation × Nat)
  | 0, 10 => .ok ([instOcto], 3)
  | 3, 10 => .ok ([instZeta], 0)
  | _, _ => .error "unexpected page"

/-- A selected-repositories check that always fails transiently. -/
def failingCheck : Int → Except String Unit := fun _ => .error "transient failure"

/-- A selected-repositories check that always fails with a different message. -/
def failingCheck2 : Int → Except String Unit := fun _ => .error "not found"

/-- A repository listing with two repositories. -/
def selectedRepos : Int → Except String gh.ListRepositories :=
  fun _ => .ok ⟨2, ["Octo/Widget", "Octo/Gadget"]⟩

/-- A stub organization registration-token endpoint. -/
def orgTokenStub : String → Except String gh.RegistrationToken :=
  fun _ => .ok ⟨"org-token", 100⟩

/-- A stub repository registration-token endpoint. -/
def repoTokenStub : String → String → Except String gh.RegistrationToken :=
  fun _ _ => .ok ⟨"repo-token", 100⟩

/-- External libraries that reject every version and URL. -/
def noExternal : config.ExternalLibs := ⟨fun _ => false, fun _ => none⟩

/-- An environment with only the runner-version variable set, to a bad value. -/
def badVersionEnv : config.Env :=
  fun n => if n = config.EnvRunnerVersion then "garbage" else ""

/-- An environment with only the plugin-path variable set, to a URL. -/
def pluginEnv : config.Env :=
  fun n => if n = config.EnvShoesPluginPath then "https://host.example/bin/shoes-lxd" else ""

/-- A world serving a binary (magic bytes 77, 90) at the plugin URL. -/
def pluginWorld : config.World := ⟨[], "/work",
  fun u => if u = "https://host.example/bin/shoes-lxd" then some (200, [77, 90])
    else some (404, []),
  fun _ => false, fun q => some ("/abs/" ++ q), fun _ => false,
  fun c => if c = [77, 90] then "application/octet-stream" else "text/plain",
  fun p => if p = "https://host.example/bin/shoes-lxd" then
    some ⟨"https", "host.example", "/bin/shoes-lxd"⟩ else none⟩

/-- A datastore that reports the lock held for the first two polls. -/
def bootIsLocked : Nat → Except String String :=
  fun k => if k < 2 then .ok "locked" else .ok "not locked"

/-- A GetLock that always succeeds. -/
def bootGetLock : Nat → Except String Unit := fun _ => .ok ()

/-- A datastore whose IsLocked always fails. -/
def failIsLocked : Nat → Except String String := fun _ => .error "db down"

end fixtures

/-! Helper lemmas about the gh embedding. -/

namespace gh

lemma listInstallations_congr (api api2 : Nat → Nat → Except String (List Installation × Nat))
    (h : ∀ p : Nat, api2 p 10 = api p 10) :
    ∀ (fuel page : Nat) (acc : List Installation),
      listInstallations api2 fuel page acc = listInstallations api fuel page acc := by
  intro fuel
  induction fuel with
  | zero => intro page acc; rfl
  | succ n ih =>
    intro page acc
    simp only [listInstallations, h page]
    cases api page 10 with
    | error e => rfl
    | ok pr =>
      by_cases hn : pr.2 = 0
      · simp [hn]
      · simp [hn, ih]

lemma listInstallations_chain (api : Nat → Nat → Except String (List Installation × Nat))
    (page : Nat) (ps : List (List Installation)) (hchain : PageChain api page ps) :
    ∀ (fuel : Nat) (acc : List Installation), ps.length ≤ fuel →
      listInstallations api fuel page acc = .ok (acc ++ ps.flatten) := by
  induction hchain with
  | last p is hp =>
    intro fuel acc hfuel
    cases fuel with
    | zero => simp at hfuel
    | succ n => simp [listInstallations, hp]
  | step p next is rest hp hne _ ih =>
    intro fuel acc hfuel
    cases fuel with
    | zero => simp at hfuel
    | succ n =>
      have hlen : rest.length ≤ n := by
        simpa using Nat.le_of_succ_le_succ (by simpa using hfuel)
      simp only [listInstallations, hp]
      rw [if_neg hne, ih n (acc ++ is) hlen]
      simp

lemma selected_not_all {s : String} (h : equalFold s "selected" = true) :
    equalFold s "all" = false := by
  have hs : s.data.map Char.toLower = "selected".data.map Char.toLower := by
    simpa [equalFold] using h
  simp only [equalFold, hs]
  decide

lemma installationsLoop_eq_find (sc : Int → Except String Unit) (inputScope : String) :
    ∀ l : List Installation,
      installationsLoop sc inputScope l = (l.find? (loopMatches sc inputScope)).map Installation.id := by
  intro l
  induction l with
  | nil => rfl
  | cons i rest ih =>
    cases hsa : i.suspendedAt with
    | some v =>
      have hm : loopMatches sc inputScope i = false := by simp [loopMatches, hsa]
      simp [installationsLoop, hsa, List.find?_cons, hm, ih]
    | none =>
      cases hpre : hasPrefixGo inputScope i.accountLogin with
      | false =>
        have hm : loopMatches sc inputScope i = false := by simp [loopMatches, hsa, hpre]
        simp [installationsLoop, hsa, hpre, List.find?_cons, hm, ih]
      | true =>
        cases hall : equalFold i.repositorySelection "all" with
        | true =>
          have hm : loopMatches sc inputScope i = true := by
            simp [loopMatches, hsa, hpre, hall]
          simp [installationsLoop, hsa, hpre, hall, List.find?_cons, hm]
        | false =>
          cases hsel : equalFold i.repositorySelection "selected" with
          | false =>
            have hm : loopMatches sc inputScope i = false := by
              simp [loopMatches, hsa, hpre, hall, hsel]
            simp [installationsLoop, hsa, hpre, hall, hsel, List.find?_cons, hm, ih]
          | true =>
            cases hres : sc i.id with
            | ok u =>
              have hm : loopMatches sc inputScope i = true := by
                simp [loopMatches, hsa, hpre, hall, hsel, exOk, hres]
              simp [installationsLoop, hsa, hpre, hall, hsel, hres, List.find?_cons, hm]
            | error e =>
              have hm : loopMatches sc inputScope i = false := by
                simp [loopMatches, hsa, hpre, hall, hsel, exOk, hres]
              simp [installationsLoop, hsa, hpre, hall, hsel, hres, List.find?_cons, hm, ih]

lemma installationsLoop_none_of_no_match (sc : Int → Except String Unit)
    (inputScope : String) (l : List Installation)
    (h : ∀ i ∈ l, loopMatches sc inputScope i = false) :
    installationsLoop sc inputScope l = none := by
  rw [installationsLoop_eq_find]
  have : l.find? (loopMatches sc inputScope) = none := by
    rw [List.find?_eq_none]
    intro i hi
    simp [h i hi]
  simp [this]

end gh

/-- C1: IsInstalledGitHubApp lists installations page by page with page size 10
(only the per-page-10 responses matter) following next-page links until the
provider reports none, skips every suspended installation, considers an
installation only when its account login is a case-sensitive prefix of the
input scope, returns the id of such an installation whose repository selection
is "all", and returns -1 with the not-installed error when no installation
matches. -/
theorem C1_installation_discovery
    (api : Nat → Nat → Except String (List gh.Installation × Nat))
    (sc : Int → Except String Unit) (ps : List (List gh.Installation))
    (fuel : Nat) (gheDomain inputScope : String)
    (hchain : gh.PageChain api 0 ps) (hfuel : ps.length ≤ fuel) :
    (∀ api2 : Nat → Nat → Except String (List gh.Installation × Nat),
        (∀ p : Nat, api2 p 10 = api p 10) →
        gh.listInstallations api2 fuel 0 [] = .ok ps.flatten)
    ∧ (∀ (i : gh.Installation) (rest : List gh.Installation),
        i.suspendedAt.isSome = true →
        gh.installationsLoop sc inputScope (i :: rest) =
          gh.installationsLoop sc inputScope rest)
    ∧ (∀ (i : gh.Installation) (rest : List gh.Installation),
        i.suspendedAt = none → hasPrefixGo inputScope i.accountLogin = false →
        gh.installationsLoop sc inputScope (i :: rest) =
          gh.installationsLoop sc inputScope rest)
    ∧ (∀ (i : gh.Installation) (rest : List gh.Installation),
        i.suspendedAt = none → hasPrefixGo inputScope i.accountLogin = true →
        equalFold i.repositorySelection "all" = true →
        gh.installationsLoop sc inputScope (i :: rest) = some i.id)
    ∧ (gh.IsInstalledGitHubApp (.ok ()) api sc fuel gheDomain inputScope =
        match gh.installationsLoop sc inputScope ps.flatten with
        | some id => (id, none)
        | none => (-1, some (gheDomain ++ "/" ++ inputScope ++
            " is not installed configured GitHub Apps")))
    ∧ ((∀ i ∈ ps.flatten, gh.loopMatches sc inputScope i = false) →
        gh.IsInstalledGitHubApp (.ok ()) api sc fuel gheDomain inputScope =
          (-1, some (gheDomain ++ "/" ++ inputScope ++
            " is not installed configured GitHub Apps"))) := by
  have hlist : gh.listInstallations api fuel 0 [] = .ok ps.flatten := by
    simpa using gh.listInstallations_chain api 0 ps hchain fuel [] hfuel
  have hmain : gh.IsInstalledGitHubApp (.ok ()) api sc fuel gheDomain inputScope =
      match gh.installationsLoop sc inputScope ps.flatten with
      | some id => (id, none)
      | none => (-1, some (gheDomain ++ "/" ++ inputScope ++
          " is not installed configured GitHub Apps")) := by
    simp only [gh.IsInstalledGitHubApp, hlist]
  refine ⟨?_, ?_, ?_, ?_, hmain, ?_⟩
  · intro api2 h
    rw [gh.listInstallations_congr api api2 h fuel 0 []]
    exact hlist
  · intro i rest h
    simp [gh.installationsLoop, h]
  · intro i rest h1 h2
    simp [gh.installationsLoop, h1, h2]
  · intro i rest h1 h2 h3
    simp [gh.installationsLoop, h1, h2, h3]
  · intro hnone
    rw [hmain, gh.installationsLoop_none_of_no_match sc inputScope ps.flatten hnone]

/-- C1 witness: the theorem applied to a concrete two-page provider with no
matching installation. -/
theorem C1_installation_discovery_witness :
    gh.IsInstalledGitHubApp (.ok ()) fixtures.twoPageApi fixtures.failingCheck 2
      "ghe.example.com" "nomatch" =
      (-1, some "ghe.example.com/nomatch is not installed configured GitHub Apps") := by
  have h := (C1_installation_discovery fixtures.twoPageApi fixtures.failingCheck
      [[fixtures.instOcto], [fixtures.instZeta]] 2 "ghe.example.com" "nomatch"
      (gh.PageChain.step 0 3 [fixtures.instOcto] [[fixtures.instZeta]] rfl (by decide)
        (gh.PageChain.last 3 [fixtures.instZeta] rfl))
      (by decide)).2.2.2.2.2 (by decide)
  exact h

/-- C2: when IsInstalledGitHubApp reaches a prefix-matching installation with
repository selection "selected", the selected check decides the outcome:
success returns that installation id and failure moves on; and the check
succeeds exactly when the fetched repository list has a positive total count
and either the scope is Organization-shaped or, for a Repository-shaped
scope, some full name equals the scope case-insensitively. -/
theorem C2_selected_repositories_check
    (listRepos : Int → Except String gh.ListRepositories) (inputScope : String)
    (installationID : Int) (lr : gh.ListRepositories) (i : gh.Installation)
    (rest : List gh.Installation) :
    (listRepos installationID = .ok lr →
      (gh.isInstalledGitHubAppSelected listRepos inputScope installationID = .ok () ↔
        (0 < lr.totalCount ∧
          (gh.DetectScope inputScope = .organization ∨
            (gh.DetectScope inputScope = .repository ∧
              lr.repositories.any (fun fullName => equalFold fullName inputScope) = true)))))
    ∧ (i.suspendedAt = none → hasPrefixGo inputScope i.accountLogin = true →
        equalFold i.repositorySelection "selected" = true →
        gh.isInstalledGitHubAppSelected listRepos inputScope i.id = .ok () →
        gh.installationsLoop (gh.isInstalledGitHubAppSelected listRepos inputScope)
          inputScope (i :: rest) = some i.id)
    ∧ (∀ e : String, i.suspendedAt = none → hasPrefixGo inputScope i.accountLogin = true →
        equalFold i.repositorySelection "selected" = true →
        gh.isInstalledGitHubAppSelected listRepos inputScope i.id = .error e →
        gh.installationsLoop (gh.isInstalledGitHubAppSelected listRepos inputScope)
          inputScope (i :: rest) =
          gh.installationsLoop (gh.isInstalledGitHubAppSelected listRepos inputScope)
            inputScope rest) := by
  refine ⟨?_, ?_, ?_⟩
  · intro hok
    simp only [gh.isInstalledGitHubAppSelected, hok]
    by_cases h1 : lr.totalCount ≤ 0
    · rw [if_pos h1]
      constructor
      · intro h; exact absurd h (by simp)
      · intro h; exact absurd h.1 (by omega)
    · rw [if_neg h1]
      cases hds : gh.DetectScope inputScope with
      | organization =>
        simp [hds]
        omega
      | repository =>
        cases hany : lr.repositories.any (fun fullName => equalFold fullName inputScope) with
        | true => simp [hds, hany]; omega
        | false => simp [hds, hany]
      | unknownScope => simp [hds]
  · intro h1 h2 h3 h4
    have hall := gh.selected_not_all h3
    simp [gh.installationsLoop, h1, h2, h3, hall, h4]
  · intro e h1 h2 h3 h4
    have hall := gh.selected_not_all h3
    simp [gh.installationsLoop, h1, h2, h3, hall, h4]

/-- C2 witness: the success characterization applied to a concrete repository
list and Repository-shaped scope. -/
theorem C2_selected_repositories_check_witness :
    gh.isInstalledGitHubAppSelected fixtures.selectedRepos "octo/widget" 7 = .ok () :=
  ((C2_selected_repositories_check fixtures.selectedRepos "octo/widget" 7
      ⟨2, ["Octo/Widget", "Octo/Gadget"]⟩ fixtures.instZeta []).1 rfl).mpr
    ⟨by decide, Or.inr ⟨by decide, by decide⟩⟩

/-- C3: GenerateRunnerRegistrationToken calls the organization endpoint with
the whole scope when the scope is detected as Organization, splits the scope
at the first slash into owner and repo for the repository endpoint when it is
detected as Repository, and returns an error independent of both endpoints
for any other scope. -/
theorem C3_registration_token_endpoint_choice
    (orgEndpoint : String → Except String gh.RegistrationToken)
    (repoEndpoint : String → String → Except String gh.RegistrationToken)
    (scope : String) :
    (gh.DetectScope scope = .organization →
      gh.GenerateRunnerRegistrationToken (.ok ()) orgEndpoint repoEndpoint scope =
        match orgEndpoint scope with
        | .error e => .error ("failed to generate registration token for organization (scope: "
            ++ scope ++ "): " ++ e)
        | .ok t => .ok (t.token, t.expiresAt))
    ∧ (gh.DetectScope scope = .repository →
      gh.GenerateRunnerRegistrationToken (.ok ()) orgEndpoint repoEndpoint scope =
        match repoEndpoint (⟨scope.data.takeWhile (fun c => c != '/')⟩ : String)
            (⟨(scope.data.dropWhile (fun c => c != '/')).drop 1⟩ : String) with
        | .error e => .error ("failed to generate registration token for repository (scope: "
            ++ scope ++ "): " ++ e)
        | .ok t => .ok (t.token, t.expiresAt))
    ∧ (gh.DetectScope scope = .unknownScope →
        ∀ (org2 : String → Except String gh.RegistrationToken)
          (repo2 : String → String → Except String gh.RegistrationToken),
          gh.GenerateRunnerRegistrationToken (.ok ()) org2 repo2 scope =
            .error ("failed to detect scope (scope: " ++ scope ++ ")")) := by
  refine ⟨?_, ?_, ?_⟩
  · intro h
    simp only [gh.GenerateRunnerRegistrationToken, h]
  · intro h
    simp only [gh.GenerateRunnerRegistrationToken, h, gh.DivideScope]
  · intro h org2 repo2
    simp only [gh.GenerateRunnerRegistrationToken, h]

/-- C3 witness: a scope with two slashes is detected as neither shape, and the
call errors for arbitrary endpoints. -/
theorem C3_registration_token_endpoint_choice_witness :
    gh.GenerateRunnerRegistrationToken (.ok ()) fixtures.orgTokenStub
      fixtures.repoTokenStub "a/b/c" =
      .error "failed to detect scope (scope: a/b/c)" :=
  (C3_registration_token_endpoint_choice fixtures.orgTokenStub fixtures.repoTokenStub
    "a/b/c").2.2 (by decide) fixtures.orgTokenStub fixtures.repoTokenStub

/-- C9: every error of the selected-repositories check is swallowed by the
installation loop, which just moves to the next installation; the loop result
depends only on whether each check succeeds, never on the error; and when no
installation matches, the caller gets -1 with only the generic not-installed
error. -/
theorem C9_selected_errors_swallowed
    (sc sc2 : Int → Except String Unit)
    (api : Nat → Nat → Except String (List gh.Installation × Nat))
    (fuel : Nat) (l : List gh.Installation) (gheDomain inputScope : String) :
    (∀ (i : gh.Installation) (rest : List gh.Installation) (e : String),
        i.suspendedAt = none → hasPrefixGo inputScope i.accountLogin = true →
        equalFold i.repositorySelection "selected" = true → sc i.id = .error e →
        gh.installationsLoop sc inputScope (i :: rest) =
          gh.installationsLoop sc inputScope rest)
    ∧ ((∀ id : Int, exOk (sc id) = exOk (sc2 id)) →
        gh.installationsLoop sc inputScope l = gh.installationsLoop sc2 inputScope l)
    ∧ (gh.listInstallations api fuel 0 [] = .ok l →
        (∀ i ∈ l, gh.loopMatches sc inputScope i = false) →
        gh.IsInstalledGitHubApp (.ok ()) api sc fuel gheDomain inputScope =
          (-1, some (gheDomain ++ "/" ++ inputScope ++
            " is not installed configured GitHub Apps"))) := by
  refine ⟨?_, ?_, ?_⟩
  · intro i rest e h1 h2 h3 h4
    have hall := gh.selected_not_all h3
    simp [gh.installationsLoop, h1, h2, h3, hall, h4]
  · intro h
    have hmf : gh.loopMatches sc inputScope = gh.loopMatches sc2 inputScope := by
      funext i
      simp only [gh.loopMatches, h i.id]
    rw [gh.installationsLoop_eq_find, gh.installationsLoop_eq_find, hmf]
  · intro hlist hnone
    simp only [gh.IsInstalledGitHubApp, hlist,
      gh.installationsLoop_none_of_no_match sc inputScope l hnone]

namespace config

lemma checkBinary_some_inv (w : World) (p ap : String) (h : checkBinary w p = some ap) :
    (∃ content : List Nat, w.files.lookup p = some content ∧
      equalFold (w.detectContentType content) "application/octet-stream" = true) ∧
    w.chmodFails p = false ∧
    ((hasPrefixGo p "/" = true ∧ ap = p) ∨
      (hasPrefixGo p "/" = false ∧ w.absResolve p = some ap)) := by
  unfold checkBinary at h
  cases hlook : w.files.lookup p with
  | none => rw [hlook] at h; exact absurd h (by simp)
  | some content =>
    rw [hlook] at h
    cases hdet : equalFold (w.detectContentType content) "application/octet-stream" with
    | false => simp [hdet] at h
    | true =>
      simp only [hdet, Bool.not_true, Bool.false_eq_true, if_false] at h
      cases hch : w.chmodFails p with
      | true => simp [hch] at h
      | false =>
        simp only [hch, Bool.false_eq_true, if_false] at h
        cases hab : hasPrefixGo p "/" with
        | true =>
          simp only [hab, if_true] at h
          exact ⟨⟨content, rfl, hdet⟩, rfl, Or.inl ⟨rfl, (Option.some_inj.mp h).symm⟩⟩
        | false =>
          simp only [hab, Bool.false_eq_true, if_false] at h
          exact ⟨⟨content, rfl, hdet⟩, rfl, Or.inr ⟨rfl, h⟩⟩

end config

/-- C5: with every environment variable unset, LoadWithDefault produces the
defaults: port 8080, runner user "runner", debug off, strict on, webhook mode
workflow_job, Docker Hub metrics off, max connections 50, max concurrency
deleting 1, GitHub URL https://github.com, runner version "latest", plugin
output path ".", rescue workflow off. -/
theorem C5_config_defaults (ext : config.ExternalLibs) :
    config.LoadWithDefault ext (fun _ => "") =
      some ⟨8080, "runner", false, true, .workflowJob, false, ⟨"", ""⟩, 50, 1,
        "https://github.com", "latest", ".", false⟩ := rfl

/-- C6: when the runner-version variable is set, loading succeeds only for the
string "latest" or a value the version parser accepts, and the accepted value
is stored unchanged; any other value makes loading panic. -/
theorem C6_runner_version_validation (ext : config.ExternalLibs) (env : config.Env) :
    (env config.EnvRunnerVersion ≠ "" → env config.EnvRunnerVersion ≠ "latest" →
      ext.versionValid (env config.EnvRunnerVersion) = false →
      config.LoadWithDefault ext env = none)
    ∧ (∀ c : config.Conf, config.LoadWithDefault ext env = some c →
        env config.EnvRunnerVersion ≠ "" →
        ((env config.EnvRunnerVersion = "latest" ∧ c.runnerVersion = "latest") ∨
          (ext.versionValid (env config.EnvRunnerVersion) = true ∧
            c.runnerVersion = env config.EnvRunnerVersion))) := by
  constructor
  · intro h1 h2 h3
    have hrv : config.loadRunnerVersion ext env = none := by
      simp [config.loadRunnerVersion, h1, h2, h3]
    cases hp : config.loadPort env <;>
      cases hm : config.loadModeWebhookType env <;>
        cases hc : config.loadMaxConnectionsToBackend env <;>
          cases hd : config.loadMaxConcurrencyDeleting env <;>
            cases hg : config.loadGitHubURL ext env <;>
              simp [config.LoadWithDefault, hp, hm, hc, hd, hg, hrv]
  · intro c hsome hne
    cases hp : config.loadPort env with
    | none => simp [config.LoadWithDefault, hp] at hsome
    | some pp =>
    cases hm : config.loadModeWebhookType env with
    | none => simp [config.LoadWithDefault, hp, hm] at hsome
    | some mwt =>
    cases hc : config.loadMaxConnectionsToBackend env with
    | none => simp [config.LoadWithDefault, hp, hm, hc] at hsome
    | some mc =>
    cases hd : config.loadMaxConcurrencyDeleting env with
    | none => simp [config.LoadWithDefault, hp, hm, hc, hd] at hsome
    | some md =>
    cases hg : config.loadGitHubURL ext env with
    | none => simp [config.LoadWithDefault, hp, hm, hc, hd, hg] at hsome
    | some gu =>
    cases hrv : config.loadRunnerVersion ext env with
    | none => simp [config.LoadWithDefault, hp, hm, hc, hd, hg, hrv] at hsome
    | some rv =>
      have hcrv : c.runnerVersion = rv := by
        simp only [config.LoadWithDefault, hp, hm, hc, hd, hg, hrv, Option.bind_eq_bind,
          Option.some_bind, Option.some_inj] at hsome
        subst hsome
        rfl
      simp only [config.loadRunnerVersion, if_neg hne] at hrv
      by_cases hl : env config.EnvRunnerVersion = "latest"
      · rw [if_pos hl] at hrv
        exact Or.inl ⟨hl, hcrv.trans (Option.some_inj.mp hrv).symm⟩
      · rw [if_neg hl] at hrv
        by_cases hv : ext.versionValid (env config.EnvRunnerVersion) = true
        · rw [if_pos hv] at hrv
          exact Or.inr ⟨hv, hcrv.trans (Option.some_inj.mp hrv).symm⟩
        · rw [if_neg hv] at hrv
          exact absurd hrv (by simp)

/-- C6 witness: a bad pinned version with every other variable unset makes
loading panic. -/
theorem C6_runner_version_validation_witness :
    config.LoadWithDefault fixtures.noExternal fixtures.badVersionEnv = none :=
  (C6_runner_version_validation fixtures.noExternal fixtures.badVersionEnv).1
    (by decide) (by decide) rfl

/-- C7: LoadPluginPath uses an existing file directly; otherwise the path must
parse as an http or https URL, whose body is downloaded into the output
directory ("." resolving to the working directory) under the last URL path
segment, failing unless the status is 200; the downloaded or local file is
rejected unless detected as application/octet-stream, is chmodded, and the
returned path is absolute; every failure on the way panics. -/
theorem C7_plugin_path_loading (w : config.World) (env : config.Env)
    (outputPath : String) :
    (env config.EnvShoesPluginPath = "" → config.LoadPluginPath outputPath env w = none)
    ∧ (env config.EnvShoesPluginPath ≠ "" →
        config.statOk w (env config.EnvShoesPluginPath) = true →
        config.LoadPluginPath outputPath env w =
          config.checkBinary w (env config.EnvShoesPluginPath))
    ∧ (env config.EnvShoesPluginPath ≠ "" →
        config.statOk w (env config.EnvShoesPluginPath) = false →
        w.urlParse (env config.EnvShoesPluginPath) = none →
        config.LoadPluginPath outputPath env w = none)
    ∧ (∀ u : config.URLParts, env config.EnvShoesPluginPath ≠ "" →
        config.statOk w (env config.EnvShoesPluginPath) = false →
        w.urlParse (env config.EnvShoesPluginPath) = some u →
        u.scheme ≠ "http" → u.scheme ≠ "https" →
        config.LoadPluginPath outputPath env w = none)
    ∧ (∀ (u : config.URLParts) (fp : String) (status : Nat) (body : List Nat),
        env config.EnvShoesPluginPath ≠ "" →
        config.statOk w (env config.EnvShoesPluginPath) = false →
        w.urlParse (env config.EnvShoesPluginPath) = some u →
        (u.scheme = "http" ∨ u.scheme = "https") →
        fp = (if equalFold outputPath "." then w.cwd else outputPath) ++ "/" ++
          config.lastSegment u.path →
        w.createFails fp = false →
        w.httpGet (config.urlString u) = some (status, body) →
        (status ≠ 200 → config.LoadPluginPath outputPath env w = none) ∧
        (status = 200 → config.LoadPluginPath outputPath env w =
          config.checkBinary (config.writeFile (config.writeFile w fp []) fp body) fp))
    ∧ (∀ p ap : String, config.checkBinary w p = some ap →
        (∃ content : List Nat, w.files.lookup p = some content ∧
          equalFold (w.detectContentType content) "application/octet-stream" = true) ∧
        w.chmodFails p = false ∧
        ((hasPrefixGo p "/" = true ∧ ap = p) ∨
          (hasPrefixGo p "/" = false ∧ w.absResolve p = some ap)))
    ∧ ((∀ q r : String, w.absResolve q = some r → hasPrefixGo r "/" = true) →
        ∀ p ap : String, config.checkBinary w p = some ap →
          hasPrefixGo ap "/" = true) := by
  refine ⟨?_, ?_, ?_, ?_, ?_, ?_, ?_⟩
  · intro h
    simp [config.LoadPluginPath, h]
  · intro h1 h2
    simp [config.LoadPluginPath, h1, config.fetch, h2]
  · intro h1 h2 h3
    simp [config.LoadPluginPath, h1, config.fetch, h2, h3]
  · intro u h1 h2 h3 h4 h5
    simp [config.LoadPluginPath, h1, config.fetch, h2, h3, h4, h5]
  · intro u fp status body h1 h2 h3 h4 hfp h6 h7
    have hfetch : config.fetch outputPath w (env config.EnvShoesPluginPath) =
        config.fetchHTTP outputPath w u := by
      rcases h4 with hs | hs <;> simp [config.fetch, h2, h3, hs]
    have hget : (config.writeFile w fp []).httpGet (config.urlString u) =
        some (status, body) := h7
    constructor
    · intro hstat
      simp [config.LoadPluginPath, h1, hfetch, config.fetchHTTP, ← hfp, h6, hget, hstat]
    · intro hstat
      subst hstat
      simp [config.LoadPluginPath, h1, hfetch, config.fetchHTTP, ← hfp, h6, hget]
  · exact fun p ap h => config.checkBinary_some_inv w p ap h
  · intro habs p ap h
    rcases config.checkBinary_some_inv w p ap h with ⟨_, _, hcase⟩
    rcases hcase with ⟨hp, rfl⟩ | ⟨_, hres⟩
    · exact hp
    · exact habs p ap hres

/-- C7 witness: downloading a binary over https into the working directory
and validating it yields the absolute plugin path. -/
theorem C7_plugin_path_loading_witness :
    config.LoadPluginPath "." fixtures.pluginEnv fixtures.pluginWorld =
      some "/work/shoes-lxd" := by
  have h := ((C7_plugin_path_loading fixtures.pluginWorld fixtures.pluginEnv ".").2.2.2.2.1
      ⟨"https", "host.example", "/bin/shoes-lxd"⟩ "/work/shoes-lxd" 200 [77, 90]
      (by decide) (by decide) rfl (Or.inr rfl) (by decide) rfl rfl).2 rfl
  exact h.trans (by decide)

/-- C9 witness: two checks failing with different messages give the same loop
result. -/
theorem C9_selected_errors_swallowed_witness :
    gh.installationsLoop fixtures.failingCheck "octo/widget" [fixtures.instZeta] =
      gh.installationsLoop fixtures.failingCheck2 "octo/widget" [fixtures.instZeta] :=
  (C9_selected_errors_swallowed fixtures.failingCheck fixtures.failingCheck2
    fixtures.twoPageApi 2 [fixtures.instZeta] "ghe.example.com" "octo/widget").2.1
    (fun _ => rfl)

namespace main

lemma runBootLoop_started_inv (il : Nat → Except String String)
    (gl : Nat → Except String Unit) (nlv : String) :
    ∀ (fuel k0 k : Nat), runBootLoop il gl nlv fuel k0 = .started k →
      k0 ≤ k ∧
      (∃ s, il k = .ok s ∧ equalFold s nlv = true) ∧
      gl k = .ok () ∧
      (∀ j, k0 ≤ j → j < k → ∃ s, il j = .ok s ∧ equalFold s nlv = false) := by
  intro fuel
  induction fuel with
  | zero =>
    intro k0 k h
    exact absurd h (by simp [runBootLoop])
  | succ n ih =>
    intro k0 k h
    simp only [runBootLoop] at h
    cases hil : il k0 with
    | error e => simp [hil] at h
    | ok s =>
      simp only [hil] at h
      cases heq : equalFold s nlv with
      | true =>
        simp only [heq, if_true] at h
        cases hgl : gl k0 with
        | error e => simp [hgl] at h
        | ok u =>
          simp only [hgl, BootOutcome.started.injEq] at h
          subst h
          refine ⟨Nat.le_refl _, ⟨s, hil, heq⟩, ?_, ?_⟩
          · cases u
            exact hgl
          · intro j hj1 hj2
            omega
      | false =>
        simp only [heq, Bool.false_eq_true, if_false] at h
        obtain ⟨hle, hk, hglk, hheld⟩ := ih (k0 + 1) k h
        refine ⟨by omega, hk, hglk, ?_⟩
        intro j hj1 hj2
        rcases Nat.eq_or_lt_of_le hj1 with hj | hj
        · subst hj
          exact ⟨s, hil, heq⟩
        · exact hheld j (by omega) hj2

lemma postN_saturates (n : Nat) (h : 1 ≤ n) :
    postN notifyEnqueueCh n = ⟨1, 1⟩ := by
  induction n with
  | zero => omega
  | succ m ih =>
    cases Nat.eq_zero_or_pos m with
    | inl h0 => subst h0; rfl
    | inr hpos =>
      show post (postN notifyEnqueueCh m) = _
      rw [ih hpos]
      rfl

end main

/-- C4: at boot, Run keeps polling the advisory lock — one 1-second sleep per
poll that saw it held — for as long as the datastore reports it locked, and
launches the web server, the starter loop and the runner lifecycle loop only
after a poll reported not-locked and GetLock succeeded; so the starter loop
never runs in a process that has not acquired the lock. -/
theorem C4_boot_lock_before_services (il : Nat → Except String String)
    (gl : Nat → Except String Unit) (nlv : String) :
    (∀ (fuel k : Nat) (s : String), il k = .ok s → equalFold s nlv = false →
        main.runBootLoop il gl nlv (fuel + 1) k = main.runBootLoop il gl nlv fuel (k + 1))
    ∧ (∀ fuel k, main.Run il gl nlv fuel = .started k →
        (∃ s, il k = .ok s ∧ equalFold s nlv = true) ∧
        gl k = .ok () ∧
        (∀ j, j < k → ∃ s, il j = .ok s ∧ equalFold s nlv = false) ∧
        main.launchedServices (main.Run il gl nlv fuel) =
          ["web server", "starter loop", "runner lifecycle loop"])
    ∧ (∀ fuel, "starter loop" ∈ main.launchedServices (main.Run il gl nlv fuel) →
        ∃ k, main.Run il gl nlv fuel = .started k ∧
          (∃ s, il k = .ok s ∧ equalFold s nlv = true) ∧ gl k = .ok ()) := by
  refine ⟨?_, ?_, ?_⟩
  · intro fuel k s h1 h2
    simp [main.runBootLoop, h1, h2]
  · intro fuel k h
    obtain ⟨_, hk, hgl, hheld⟩ := main.runBootLoop_started_inv il gl nlv fuel 0 k h
    refine ⟨hk, hgl, fun j hj => hheld j (Nat.zero_le _) hj, ?_⟩
    rw [h]
    rfl
  · intro fuel hmem
    cases ho : main.Run il gl nlv fuel with
    | failed m => rw [ho] at hmem; simp [main.launchedServices] at hmem
    | fuelOut => rw [ho] at hmem; simp [main.launchedServices] at hmem
    | started k =>
      obtain ⟨_, hk, hgl, _⟩ := main.runBootLoop_started_inv il gl nlv fuel 0 k ho
      exact ⟨k, rfl, hk, hgl⟩

/-- C4 witness: a lock held for two polls delays the services by exactly two
sleeps and then all three loops are launched. -/
theorem C4_boot_lock_before_services_witness :
    main.launchedServices (main.Run fixtures.bootIsLocked fixtures.bootGetLock
      "not locked" 10) = ["web server", "starter loop", "runner lifecycle loop"] :=
  ((C4_boot_lock_before_services fixtures.bootIsLocked fixtures.bootGetLock
    "not locked").2.1 10 2 (by decide)).2.2.2

/-- C10: an IsLocked or GetLock error makes Run return that error at once —
independent of the remaining fuel, with no service loop launched — while only
a held lock takes the sleep-and-retry path. -/
theorem C10_lock_errors_not_retried (il : Nat → Except String String)
    (gl : Nat → Except String Unit) (nlv : String) :
    (∀ (fuel k : Nat) (e : String), il k = .error e →
        main.runBootLoop il gl nlv (fuel + 1) k =
          .failed ("failed to check lock: " ++ e) ∧
        main.launchedServices (main.runBootLoop il gl nlv (fuel + 1) k) = [])
    ∧ (∀ (fuel k : Nat) (s e : String), il k = .ok s → equalFold s nlv = true →
        gl k = .error e →
        main.runBootLoop il gl nlv (fuel + 1) k =
          .failed ("failed to get lock: " ++ e) ∧
        main.launchedServices (main.runBootLoop il gl nlv (fuel + 1) k) = [])
    ∧ (∀ (fuel k : Nat) (s : String), il k = .ok s → equalFold s nlv = false →
        main.runBootLoop il gl nlv (fuel + 1) k =
          main.runBootLoop il gl nlv fuel (k + 1)) := by
  refine ⟨?_, ?_, ?_⟩
  · intro fuel k e h
    have hres : main.runBootLoop il gl nlv (fuel + 1) k =
        .failed ("failed to check lock: " ++ e) := by
      simp [main.runBootLoop, h]
    exact ⟨hres, by rw [hres]; rfl⟩
  · intro fuel k s e h1 h2 h3
    have hres : main.runBootLoop il gl nlv (fuel + 1) k =
        .failed ("failed to get lock: " ++ e) := by
      simp [main.runBootLoop, h1, h2, h3]
    exact ⟨hres, by rw [hres]; rfl⟩
  · intro fuel k s h1 h2
    simp [main.runBootLoop, h1, h2]

/-- C10 witness: a failing IsLocked aborts the boot immediately with the
wrapped error. -/
theorem C10_lock_errors_not_retried_witness :
    main.runBootLoop fixtures.failIsLocked fixtures.bootGetLock "not locked" 5 0 =
      .failed "failed to check lock: db down" :=
  ((C10_lock_errors_not_retried fixtures.failIsLocked fixtures.bootGetLock
    "not locked").1 4 0 "db down" rfl).1

/-- C8: the enqueue-notify channel has capacity exactly 1; a post while a
prior post is undrained leaves the channel unchanged (the post is dropped);
and any positive number of posts leaves exactly one buffered signal, so one
extra starter tick is observed and a second drain sees nothing. -/
theorem C8_notify_capacity_one_coalescing :
    main.notifyEnqueueCh.capacity = 1
    ∧ (∀ c : main.NotifyCh, c.capacity = 1 → c.buffered = 1 → main.post c = c)
    ∧ (∀ n : Nat, 1 ≤ n →
        (main.postN main.notifyEnqueueCh n).buffered = 1 ∧
        (main.drain (main.postN main.notifyEnqueueCh n)).2 = true ∧
        (main.drain (main.drain (main.postN main.notifyEnqueueCh n)).1).2 = false) := by
  refine ⟨rfl, ?_, ?_⟩
  · intro c h1 h2
    simp [main.post, h1, h2]
  · intro n hn
    rw [main.postN_saturates n hn]
    exact ⟨rfl, rfl, rfl⟩

/-- C8 witness: three posts during one tick coalesce into exactly one
buffered signal and one extra tick. -/
theorem C8_notify_capacity_one_coalescing_witness :
    (main.postN main.notifyEnqueueCh 3).buffered = 1 ∧
    (main.drain (main.postN main.notifyEnqueueCh 3)).2 = true ∧
    (main.drain (main.drain (main.postN main.notifyEnqueueCh 3)).1).2 = false :=
  C8_notify_capacity_one_coalescing.2.2 3 (by decide)

end Myshoes
